import Mathlib

set_option maxRecDepth 8000

/-!
Shallow embedding of the Instagram → Google Business Profile synchronization
pipeline (filter engine, publisher conversion, token lifecycle, sync ledger,
webhook signature check, per-post processing).

Modelling conventions:
* JS strings are Lean `String`s; `string.length` is modelled as the number of
  characters (the repository only manipulates BMP text, where JS UTF-16 code
  units and characters agree on the examples used here).
* Timestamps (`Date` values, `Date.now()`) are epoch-millisecond integers
  (`Int`).  `new Date(post.timestamp).getTime()` is modelled by storing the
  candidate timestamp directly as an `Int`.
* Fallible operations (`axios` calls, `fs` reads, thrown exceptions) are
  modelled with `Except`; the value injected stands for the outcome of the
  corresponding I/O action.
* JS truthiness tests on optional strings (`!s`) are modelled as the string
  being absent or empty.
-/

/-- Word character of the JS regex character class
`[\wÀ-ɏḀ-ỿ]` used by the hashtag pattern in
`filters.ts` and `gbp.ts` (`\w` is ASCII letters, digits and underscore). -/
def isWordChar (c : Char) : Bool :=
  c.isAlphanum || c == '_' ||
    (0xc0 ≤ c.toNat && c.toNat ≤ 0x24f) ||
    (0x1e00 ≤ c.toNat && c.toNat ≤ 0x1eff)

/-- Scanner computing the matches of the JS regex `/#[\wÀ-ɏḀ-ỿ]+/gi`
left to right and non-overlapping, as produced by `String.prototype.match`.
The second argument is the scanner state: `none` outside a candidate match,
`some tok` after a `#` with `tok` the word characters read so far (a match
only exists when at least one word character follows the `#`). -/
def extractTagsGo : List Char → Option (List Char) → List String
  | [], none => []
  | [], some tok => if tok = [] then [] else [String.mk ('#' :: tok)]
  | c :: rest, none =>
    if c = '#' then extractTagsGo rest (some []) else extractTagsGo rest none
  | c :: rest, some tok =>
    if isWordChar c then extractTagsGo rest (some (tok ++ [c]))
    else if tok = [] then
      if c = '#' then extractTagsGo rest (some []) else extractTagsGo rest none
    else
      String.mk ('#' :: tok) ::
        (if c = '#' then extractTagsGo rest (some []) else extractTagsGo rest none)

/-- All matches of the hashtag regex in a character list. -/
def extractTags (l : List Char) : List String := extractTagsGo l none

/-- Scanner for `caption.replace(/#[\w...]+/gi, '')`: every regex match is
removed, all other characters are kept.  The state is `none` outside a
candidate match, `some b` after a `#` where `b` records whether at least one
word character has followed it (only then does the `#` belong to a match). -/
def stripTagsGo : List Char → Option Bool → List Char
  | [], none => []
  | [], some b => if b then [] else ['#']
  | c :: rest, none =>
    if c = '#' then stripTagsGo rest (some false) else c :: stripTagsGo rest none
  | c :: rest, some b =>
    if isWordChar c then stripTagsGo rest (some true)
    else if b then
      if c = '#' then stripTagsGo rest (some false) else c :: stripTagsGo rest none
    else
      '#' :: (if c = '#' then stripTagsGo rest (some false) else c :: stripTagsGo rest none)

/-- Replacement of every match of the hashtag regex by the empty string, as
performed by `caption.replace(/#[\w...]+/gi, '')`. -/
def stripTags (l : List Char) : List Char := stripTagsGo l none

/-- `String.prototype.trim()`: drop whitespace from both ends. -/
def jsTrim (l : List Char) : List Char :=
  ((l.dropWhile Char.isWhitespace).reverse.dropWhile Char.isWhitespace).reverse

/-- `trim()` on a `String`. -/
def trimStr (s : String) : String := String.mk (jsTrim s.data)

/-- `replace(/#[\w...]+/gi, '')` on a `String`. -/
def stripTagsStr (s : String) : String := String.mk (stripTags s.data)

/-- `String.prototype.toLowerCase()` (ASCII case folding; the repository's
configured hashtags are ASCII). -/
def lowerStr (s : String) : String := String.mk (s.data.map Char.toLower)

/-- A candidate Instagram post (`InstagramPost` in `types.ts`).  `timestamp`
is the creation instant in epoch milliseconds. -/
structure InstagramPost where
  id : String
  caption : Option String
  media_type : String
  media_url : Option String
  permalink : String
  timestamp : Int
deriving DecidableEq, Repr

/-- `FilterResult` in `types.ts`. -/
structure FilterResult where
  shouldSync : Bool
  matchedHashtags : List String
  reason : Option String
deriving DecidableEq, Repr

/-- `PostFilter.extractHashtags`: `[]` for a missing caption, otherwise the
regex matches. -/
def extractHashtags (caption : Option String) : List String :=
  match caption with
  | none => []
  | some s => extractTags s.data

/-- `PostFilter.filterByMediaType`: only `IMAGE` and `CAROUSEL_ALBUM` pass. -/
def filterByMediaType (post : InstagramPost) : FilterResult :=
  if (["IMAGE", "CAROUSEL_ALBUM"].contains post.media_type) = false then
    { shouldSync := false
      matchedHashtags := []
      reason := some ("メディアタイプ '" ++ post.media_type ++ "' はサポートされていません") }
  else
    { shouldSync := true, matchedHashtags := [], reason := none }

/-- `Math.round` on the exact rational `ageMs / 3600000`, i.e.
`⌊ageMs/3600000 + 1/2⌋`; matches the JS float computation on realistic
magnitudes. -/
def roundAgeHours (ageMs : Int) : Int :=
  Int.fdiv (2 * ageMs + 3600000) 7200000

/-- `PostFilter.filterByAge` with the ambient clock made explicit: the code
computes `ageHours = (now - postTime) / 3600000` and rejects when it exceeds
`maxAgeHours`; over the integers this is `maxAgeHours * 3600000 < now - t`. -/
def filterByAge (post : InstagramPost) (now : Int) (maxAgeHours : Int) : FilterResult :=
  if maxAgeHours * 3600000 < now - post.timestamp then
    { shouldSync := false
      matchedHashtags := []
      reason := some ("投稿が古すぎます (" ++ toString (roundAgeHours (now - post.timestamp)) ++
        "時間前, 最大: " ++ toString maxAgeHours ++ "時間)") }
  else
    { shouldSync := true, matchedHashtags := [], reason := none }

/-- `PostFilter.filterByContent`: caption required and non-blank, at least 10
characters once hashtags are stripped and the ends trimmed, at most 20
hashtag occurrences. -/
def filterByContent (post : InstagramPost) : FilterResult :=
  match post.caption with
  | none =>
    { shouldSync := false, matchedHashtags := [], reason := some ("投稿にキャプションがありません") }
  | some c =>
    if (trimStr c).length = 0 then
      { shouldSync := false, matchedHashtags := [], reason := some ("投稿にキャプションがありません") }
    else if (trimStr (stripTagsStr c)).length < 10 then
      { shouldSync := false
        matchedHashtags := []
        reason := some ("ハッシュタグを除いたキャプションが短すぎます") }
    else if 20 < (extractTags c.data).length then
      { shouldSync := false
        matchedHashtags := []
        reason := some ("ハッシュタグが多すぎます (" ++ toString (extractTags c.data).length ++
          "個, 最大: 20個)") }
    else
      { shouldSync := true, matchedHashtags := [], reason := none }

/-- `PostFilter.filterPost`.  `targetRaw` is the configured
`appConfig.sync.targetHashtag` (the constructor lowercases it for matching,
the rejection message interpolates the raw value); `now` is the instant the
ambient `new Date()` inside `filterByAge` evaluates to. -/
def filterPost (targetRaw : String) (now : Int) (post : InstagramPost) : FilterResult :=
  if ((extractHashtags post.caption).map lowerStr).contains (lowerStr targetRaw) = false then
    { shouldSync := false
      matchedHashtags := []
      reason := some ("対象ハッシュタグ '" ++ targetRaw ++ "' が投稿に見つかりません") }
  else
    if (filterByMediaType post).shouldSync = false then filterByMediaType post
    else if (filterByAge post now 24).shouldSync = false then filterByAge post now 24
    else if (filterByContent post).shouldSync = false then filterByContent post
    else
      { shouldSync := true, matchedHashtags := extractHashtags post.caption, reason := none }

example : extractTags ("ab #meo x##tag".data) = ["#meo", "#tag"] := by decide
example : stripTags ("a #meo b".data) = "a  b".data := by decide
example : (filterPost ("#MEO") 0
    { id := "p", caption := some ("New menu today! #MEO #food"), media_type := "IMAGE",
      media_url := some ("http://x"), permalink := "http://y", timestamp := 0 }) =
    { shouldSync := true, matchedHashtags := ["#MEO", "#food"], reason := none } := by decide
example : (filterPost ("#MEO") 0
    { id := "p", caption := some ("New menu today! #MEO"), media_type := "VIDEO",
      media_url := some ("http://x"), permalink := "http://y", timestamp := 0 }).shouldSync
    = false := by decide

/-- `media` entry of a GBP local post (`GBPLocalPost.media` element). -/
structure GBPMedia where
  mediaFormat : String
  sourceUrl : String
deriving DecidableEq, Repr

/-- `callToAction` of a GBP local post. -/
structure GBPCallToAction where
  actionType : String
  url : String
deriving DecidableEq, Repr

/-- `GBPLocalPost` in `types.ts`; `media` is an optional field. -/
structure GBPLocalPost where
  languageCode : String
  summary : String
  topicType : String
  callToAction : GBPCallToAction
  media : Option (List GBPMedia)
deriving DecidableEq, Repr

/-- Default summary used when the caption is missing or empty
(JS `instagramPost.caption || '...'`). -/
def gbpDefaultSummary : String := "Check out our latest post on Instagram!"

/-- Fallback summary used when the cleaned caption is shorter than 10
characters. -/
def gbpFallbackSummary : String := "最新の投稿をチェック！詳細は Instagram をご覧ください。"

/-- JS truthiness of an optional string: present and non-empty. -/
def jsTruthy (s : Option String) : Bool := !(s.getD "" == "")

/-- `GoogleBusinessProfileAPI.convertInstagramToGBPPost`: caption (or default
when falsy), hashtags stripped and ends trimmed, truncated to 1500
characters as `substring(0, 1497) + '...'` when longer, replaced by the
fallback sentence when shorter than 10 characters; media attached only for a
truthy `media_url` with `media_type === 'IMAGE'`. -/
def convertInstagramToGBPPost (post : InstagramPost) : GBPLocalPost :=
  let s1 := match post.caption with
    | none => gbpDefaultSummary
    | some c => if c = "" then gbpDefaultSummary else c
  let s2 := trimStr (stripTagsStr s1)
  let s3 := if 1500 < s2.length then String.mk (s2.data.take 1497) ++ "..." else s2
  let s4 := if s3.length < 10 then gbpFallbackSummary else s3
  { languageCode := "en-US"
    summary := s4
    topicType := "STANDARD"
    callToAction := { actionType := "LEARN_MORE", url := post.permalink }
    media :=
      if jsTruthy post.media_url && post.media_type == "IMAGE" then
        some [{ mediaFormat := "PHOTO", sourceUrl := post.media_url.getD "" }]
      else none }

/-- The summary construction rule exactly as the specification sentence for
C2 words it: caption, or the fixed default string when the caption is
absent; strip all tag tokens; truncate to 1500 characters with an ellipsis
marker when exceeded; substitute the fallback sentence when empty or shorter
than 10 characters.  (No trimming of surrounding whitespace, and an empty
caption is not treated as absent.) -/
def summaryClaimed (post : InstagramPost) : String :=
  let s1 := match post.caption with
    | none => gbpDefaultSummary
    | some c => c
  let s2 := stripTagsStr s1
  let s3 := if 1500 < s2.length then String.mk (s2.data.take 1497) ++ "..." else s2
  if s3.length < 10 then gbpFallbackSummary else s3

/-- The amended summary construction rule: as `summaryClaimed`, but an empty
caption falls back to the default string and surrounding whitespace is
trimmed after tag stripping — matching the `.replace(...).trim()` step of
the code. -/
def summaryAmended (post : InstagramPost) : String :=
  let s1 := match post.caption with
    | none => gbpDefaultSummary
    | some c => if c = "" then gbpDefaultSummary else c
  let s2 := trimStr (stripTagsStr s1)
  let s3 := if 1500 < s2.length then String.mk (s2.data.take 1497) ++ "..." else s2
  if s3.length < 10 then gbpFallbackSummary else s3

/-- The media-attachment condition as the C2 claim words it: the media kind
is single-image and a media URL is present (present = JS-truthy, i.e. a
non-empty URL string). -/
def mediaClaimCondition (post : InstagramPost) : Bool :=
  post.media_type == "IMAGE" && jsTruthy post.media_url

/-- The token-manager state of `GoogleBusinessProfileAPI`: fields
`accessToken` and `tokenExpiresAt` (epoch milliseconds, initially `0`). -/
structure GBPTokenState where
  accessToken : Option String
  tokenExpiresAt : Int
deriving DecidableEq, Repr

/-- JS truthiness of `this.accessToken`: a token is held when it is non-null
and non-empty. -/
def tokenHeld (st : GBPTokenState) : Bool := jsTruthy st.accessToken

/-- The refresh condition of `getValidAccessToken`:
`!this.accessToken || Date.now() >= this.tokenExpiresAt - 60000`. -/
def needsRefresh (st : GBPTokenState) (now : Int) : Bool :=
  !tokenHeld st || decide (st.tokenExpiresAt - 60000 ≤ now)

deriving instance DecidableEq for Except

/-- Outcome of one `getValidAccessToken` call. -/
structure TokenFetchResult where
  result : Except String String
  state : GBPTokenState
  didRefresh : Bool
deriving DecidableEq, Repr

/-- `GoogleBusinessProfileAPI.refreshAccessToken` followed by the return of
`getValidAccessToken`.  `refreshOutcome` is the destination token endpoint's
response: `access_token` and `expires_in` seconds on success, the transport
error message on failure.  On success the credential is replaced whole; on
failure the stored credential is untouched and the error is rethrown with
the fixed prefix. -/
def getValidAccessToken (st : GBPTokenState) (now : Int)
    (refreshOutcome : Except String (String × Int)) : TokenFetchResult :=
  if needsRefresh st now then
    match refreshOutcome with
    | Except.ok p =>
      { result := Except.ok p.1
        state := { accessToken := some p.1, tokenExpiresAt := now + p.2 * 1000 }
        didRefresh := true }
    | Except.error m =>
      { result := Except.error ("GBP トークン更新に失敗: " ++ m)
        state := st
        didRefresh := true }
  else
    { result := Except.ok (st.accessToken.getD ""), state := st, didRefresh := false }

example :
    (getValidAccessToken { accessToken := some "t", tokenExpiresAt := 100000 } 0
      (Except.error "boom")).didRefresh = false := by decide
example :
    (getValidAccessToken { accessToken := none, tokenExpiresAt := 0 } 0
      (Except.ok ("u", 3600))).state.tokenExpiresAt = 3600000 := by decide

/-- Status of a sync record (`SyncLog.status` in `types.ts`). -/
inductive SyncStatus where
  | success
  | failed
  | skipped
deriving DecidableEq, Repr

/-- A Sync Record (`SyncLog` in `types.ts`); `timestamp` in epoch
milliseconds and `syncDuration` in milliseconds. -/
structure SyncLog where
  id : String
  timestamp : Int
  instagramPostId : String
  instagramCaption : Option String
  instagramMediaUrl : Option String
  gbpPostId : Option String
  status : SyncStatus
  error : Option String
  hashtags : List String
  syncDuration : Int
deriving DecidableEq, Repr

/-- Outcome of reading the JSON-lines sync store (`sync-history.jsonl`):
the file may be absent (`fs.access`/`fs.readFile` fail with `ENOENT`), the
read may fail for another reason, or it yields a list of lines where each
line's `JSON.parse` outcome is `some` record or `none` for a malformed
line. -/
inductive StoreRead where
  | absent
  | readError (msg : String)
  | ok (lines : List (Option SyncLog))
deriving DecidableEq, Repr

/-- The comparator `(a, b) => time(b) - time(a)` of `getSyncLogs`: sort by
timestamp descending (stable, as `Array.prototype.sort` is). -/
def sortLogsDesc (logs : List SyncLog) : List SyncLog :=
  List.insertionSort (fun a b => b.timestamp ≤ a.timestamp) logs

/-- `SyncLogger.getSyncLogs(limit, offset)`: an absent store file yields
`[]`; any other read failure is rethrown; otherwise malformed lines are
dropped, the records are sorted by timestamp descending and
`slice(offset, offset + limit)` is returned. -/
def getSyncLogs (st : StoreRead) (limit offset : Nat) : Except String (List SyncLog) :=
  match st with
  | StoreRead.absent => Except.ok []
  | StoreRead.readError m => Except.error m
  | StoreRead.ok lines =>
    Except.ok (((sortLogsDesc (lines.filterMap id)).drop offset).take limit)

/-- Aggregate statistics derived from the sync store. -/
structure SyncStats where
  total : Nat
  successful : Nat
  failed : Nat
  skipped : Nat
  lastSync : Option Int
deriving DecidableEq, Repr

/-- `SyncLogger.getSyncLogStats`: scans `getSyncLogs(1000)` (the most recent
1000 records); on any read error it returns all-zero statistics. -/
def getSyncLogStats (st : StoreRead) : SyncStats :=
  match getSyncLogs st 1000 0 with
  | Except.error _ =>
    { total := 0, successful := 0, failed := 0, skipped := 0, lastSync := none }
  | Except.ok logs =>
    { total := logs.length
      successful := (logs.filter (fun r => r.status == SyncStatus.success)).length
      failed := (logs.filter (fun r => r.status == SyncStatus.failed)).length
      skipped := (logs.filter (fun r => r.status == SyncStatus.skipped)).length
      lastSync := match logs with | [] => none | r :: _ => some r.timestamp }

/-- Timestamp of the most recent record of a set: the maximum of the
records' timestamps (the C7 claim's "timestamp of the most recent record"). -/
def maxTimestamp (logs : List SyncLog) : Option Int :=
  match logs with
  | [] => none
  | r :: rest =>
    match maxTimestamp rest with
    | none => some r.timestamp
    | some m => some (max r.timestamp m)

/-- The statistics obtained, as the C7 claim words it, by scanning the
entire record set: total count, counts by status, and the timestamp of the
most recent record. -/
def scanStats (logs : List SyncLog) : SyncStats :=
  { total := logs.length
    successful := (logs.filter (fun r => r.status == SyncStatus.success)).length
    failed := (logs.filter (fun r => r.status == SyncStatus.failed)).length
    skipped := (logs.filter (fun r => r.status == SyncStatus.skipped)).length
    lastSync := maxTimestamp logs }

/-- `processSinglePost` in `server.ts`, as the list of Sync Records it
appends to the ledger.  `startTime` is the `Date.now()` read on entry (used
for the sync id and duration), `now` the instant of the subsequent clock
reads, and `publishOutcome` the result of `gbpAPI.createLocalPost` — the
listing id on success, the thrown error's message on failure (the publish
call is only made when the filter verdict is eligible).  `logSync` itself
never throws (it catches internally), so the `catch` branch is reached
exactly on a publish failure. -/
def processSinglePost (targetRaw : String) (startTime now : Int) (post : InstagramPost)
    (publishOutcome : Except String String) : List SyncLog :=
  if (filterPost targetRaw now post).shouldSync = false then
    [{ id := post.id ++ "-" ++ toString startTime
       timestamp := now
       instagramPostId := post.id
       instagramCaption := post.caption
       instagramMediaUrl := post.media_url
       gbpPostId := none
       status := SyncStatus.skipped
       error := none
       hashtags := (filterPost targetRaw now post).matchedHashtags
       syncDuration := now - startTime }]
  else
    match publishOutcome with
    | Except.ok gbpId =>
      [{ id := post.id ++ "-" ++ toString startTime
         timestamp := now
         instagramPostId := post.id
         instagramCaption := post.caption
         instagramMediaUrl := post.media_url
         gbpPostId := some gbpId
         status := SyncStatus.success
         error := none
         hashtags := (filterPost targetRaw now post).matchedHashtags
         syncDuration := now - startTime }]
    | Except.error e =>
      [{ id := post.id ++ "-" ++ toString startTime
         timestamp := now
         instagramPostId := post.id
         instagramCaption := post.caption
         instagramMediaUrl := post.media_url
         gbpPostId := none
         status := SyncStatus.failed
         error := some e
         hashtags := []
         syncDuration := now - startTime }]

/-- The Sync Record status the C1 claim prescribes for a candidate:
`skipped` when the filter verdict is ineligible, `success` when publication
returns a listing id, `failed` when publication raises. -/
def claimedStatusC1 (verdict : FilterResult) (publishOutcome : Except String String) :
    SyncStatus :=
  if verdict.shouldSync = false then SyncStatus.skipped
  else match publishOutcome with
    | Except.ok _ => SyncStatus.success
    | Except.error _ => SyncStatus.failed

/-- Hexadecimal digit, as accepted by Node's `Buffer.from(s, 'hex')`. -/
def isHexDigitChar (c : Char) : Bool :=
  c.isDigit || ('a' ≤ c && c ≤ 'f') || ('A' ≤ c && c ≤ 'F')

/-- Value of a hexadecimal digit. -/
def hexVal (c : Char) : Nat :=
  if c.isDigit then c.toNat - 48
  else if 'a' ≤ c && c ≤ 'f' then c.toNat - 87
  else c.toNat - 55

/-- Node `Buffer.from(s, 'hex')`: the string is decoded two characters at a
time; decoding is truncated at the first invalid pair (including a lone
trailing character), without throwing. -/
def hexDecode : List Char → List Nat
  | c1 :: c2 :: rest =>
    if isHexDigitChar c1 && isHexDigitChar c2 then
      (16 * hexVal c1 + hexVal c2) :: hexDecode rest
    else []
  | _ => []

/-- JS `String.prototype.replace` with a string pattern: remove the first
occurrence of `pat` (and only the first); no occurrence leaves the string
unchanged. -/
def dropFirstMatch (pat : List Char) : List Char → List Char
  | [] => []
  | c :: rest =>
    if pat.isPrefixOf (c :: rest) then (c :: rest).drop pat.length
    else c :: dropFirstMatch pat rest

/-- `signature.replace('sha256=', '')` in `verifyWebhookSignature`. -/
def removeSigMarker (sig : String) : String :=
  String.mk (dropFirstMatch ("sha256=".data) sig.data)

/-- Node `crypto.timingSafeEqual`: throws a `RangeError` when the buffers
differ in byte length, otherwise compares them. -/
def timingSafeEqual (a b : List Nat) : Except String Bool :=
  if a.length = b.length then Except.ok (a == b)
  else Except.error "Input buffers must have the same byte length"

/-- `InstagramAPI.verifyWebhookSignature`.  `digestHex` stands for the value
of `crypto.createHmac('sha256', appSecret).update(payload).digest('hex')` —
the HMAC-SHA256 primitive is abstracted as this 64-character lowercase hex
input; everything downstream of it is modelled faithfully.  The `try/catch`
around the body turns any thrown error (in particular the length-mismatch
`RangeError` of `timingSafeEqual`) into `false`. -/
def verifyWebhookSignature (digestHex : String) (signature : String) : Bool :=
  match timingSafeEqual (hexDecode digestHex.data)
      (hexDecode (removeSigMarker signature).data) with
  | Except.ok b => b
  | Except.error _ => false

/-- A well-formed hex signature in the sense of the C9 claim: only hex
digits, of exactly the 32-byte (64 hex character) HMAC-SHA256 digest
length. -/
def wellFormedHexSig (s : String) : Bool :=
  s.data.all isHexDigitChar && s.data.length == 64

example :
    verifyWebhookSignature (String.mk (List.replicate 64 '0'))
      ("sha256=" ++ String.mk (List.replicate 64 '0')) = true := by decide
example :
    verifyWebhookSignature (String.mk (List.replicate 64 '0'))
      (String.mk (List.replicate 62 '0')) = false := by decide
example :
    verifyWebhookSignature (String.mk (List.replicate 64 '0'))
      (String.mk (List.replicate 64 '0' ++ ['z', 'z'])) = true := by decide

/-- Phase of one logical caller inside `getValidAccessToken`: not yet
entered, suspended at the `await` of the in-flight `refreshAccessToken`
HTTP exchange, or returned. -/
inductive CallerPhase where
  | idle
  | awaitingRefresh
  | finished
deriving DecidableEq, Repr

/-- Two concurrent callers of `getValidAccessToken` sharing the single
`GoogleBusinessProfileAPI` instance.  `refreshCalls` counts the refresh
HTTP requests issued to the token endpoint. -/
structure TwoCallers where
  shared : GBPTokenState
  refreshCalls : Nat
  phaseA : CallerPhase
  phaseB : CallerPhase
deriving DecidableEq, Repr

/-- One scheduler step of the caller selected by `c` (`true` = caller A).
An idle caller evaluates the `needsRefresh` timestamp check on the shared
state: if it fires, the caller issues a refresh request and suspends at the
`await`; otherwise it returns at once.  A suspended caller's refresh
response then arrives and overwrites the shared credential.  The code has no
coordination between the check and the write, so the interleaving is
whatever the scheduler picks. -/
def stepCaller (now : Int) (fresh : String × Int) (sys : TwoCallers) (c : Bool) : TwoCallers :=
  match (if c then sys.phaseA else sys.phaseB) with
  | CallerPhase.idle =>
    if needsRefresh sys.shared now then
      if c then
        { sys with refreshCalls := sys.refreshCalls + 1, phaseA := CallerPhase.awaitingRefresh }
      else
        { sys with refreshCalls := sys.refreshCalls + 1, phaseB := CallerPhase.awaitingRefresh }
    else
      if c then { sys with phaseA := CallerPhase.finished }
      else { sys with phaseB := CallerPhase.finished }
  | CallerPhase.awaitingRefresh =>
    if c then
      { sys with
        shared := { accessToken := some fresh.1, tokenExpiresAt := now + fresh.2 * 1000 }
        phaseA := CallerPhase.finished }
    else
      { sys with
        shared := { accessToken := some fresh.1, tokenExpiresAt := now + fresh.2 * 1000 }
        phaseB := CallerPhase.finished }
  | CallerPhase.finished => sys

/-- Run a schedule of caller steps. -/
def runCallers (now : Int) (fresh : String × Int) (sched : List Bool) (sys : TwoCallers) :
    TwoCallers :=
  sched.foldl (stepCaller now fresh) sys

/-- The initial system: no token held, both callers about to enter
`getValidAccessToken`. -/
def initialCallers : TwoCallers :=
  { shared := { accessToken := none, tokenExpiresAt := 0 }
    refreshCalls := 0
    phaseA := CallerPhase.idle
    phaseB := CallerPhase.idle }

/-- Ambient state observed by a `filterPost` run: the value the system clock
(`new Date()`) currently reads, and the emitted log lines. -/
structure World where
  clock : Int
  logLines : List String
deriving DecidableEq, Repr

/-- Append one log message. -/
def logLine (w : World) (m : String) : World :=
  { w with logLines := w.logLines ++ [m] }

/-- `PostFilter.filterPost` with its side effects made explicit: the log
calls append lines (the winston metadata objects are abbreviated to the
message text) and the age check reads the ambient clock; nothing else is
read or written. -/
def filterPostRun (targetRaw : String) (post : InstagramPost) (w : World) :
    FilterResult × World :=
  if ((extractHashtags post.caption).map lowerStr).contains (lowerStr targetRaw) = false then
    ({ shouldSync := false
       matchedHashtags := []
       reason := some ("対象ハッシュタグ '" ++ targetRaw ++ "' が投稿に見つかりません") },
     logLine (logLine w ("Instagram 投稿をフィルタリング中"))
       ("投稿を除外 - 対象ハッシュタグが見つかりません"))
  else
    if (filterByMediaType post).shouldSync = false then
      (filterByMediaType post,
       logLine (logLine w ("Instagram 投稿をフィルタリング中")) ("追加フィルターにより投稿を除外"))
    else if (filterByAge post w.clock 24).shouldSync = false then
      (filterByAge post w.clock 24,
       logLine (logLine w ("Instagram 投稿をフィルタリング中")) ("追加フィルターにより投稿を除外"))
    else if (filterByContent post).shouldSync = false then
      (filterByContent post,
       logLine (logLine w ("Instagram 投稿をフィルタリング中")) ("追加フィルターにより投稿を除外"))
    else
      ({ shouldSync := true, matchedHashtags := extractHashtags post.caption, reason := none },
       logLine (logLine w ("Instagram 投稿をフィルタリング中")) ("投稿がすべてのフィルターを通過"))

/-- C1: every candidate processed by `processSinglePost` appends exactly one
Sync Record, whose status is `skipped` when the filter verdict is
ineligible, `success` when publication returns a listing id, and `failed`
when publication raises an error. -/
theorem processSinglePost_one_record (targetRaw : String) (startTime now : Int)
    (post : InstagramPost) (publishOutcome : Except String String) :
    (processSinglePost targetRaw startTime now post publishOutcome).length = 1
    ∧ (processSinglePost targetRaw startTime now post publishOutcome).all
        (fun r => r.status == claimedStatusC1 (filterPost targetRaw now post) publishOutcome)
      = true := by
  cases hf : (filterPost targetRaw now post).shouldSync <;>
    cases publishOutcome <;>
      simp [processSinglePost, claimedStatusC1, hf]

/-- C2 counterexample: the claim's summary construction (caption or default
when absent, tag tokens stripped, truncated, fallback when shorter than 10)
disagrees with the code on a caption with trailing whitespace, because the
code additionally trims the ends: on `"0123456789 "` the claim's rule keeps
the 11-character string while the code trims it to 10 characters. -/
theorem convert_summary_claim_counterexample :
    (convertInstagramToGBPPost
        { id := "p", caption := some ("0123456789 "), media_type := "IMAGE",
          media_url := some ("http://m"), permalink := "http://x", timestamp := 0 }).summary
      ≠ summaryClaimed
        { id := "p", caption := some ("0123456789 "), media_type := "IMAGE",
          media_url := some ("http://m"), permalink := "http://x", timestamp := 0 } := by
  decide

/-- C2 (amended): the Destination Listing Request's summary equals the
claim's pipeline once it also trims surrounding whitespace after tag
stripping and treats an empty caption like an absent one, and media is
attached exactly when the media kind is single-image and a (non-empty)
media URL is present. -/
theorem convert_summary_and_media (post : InstagramPost) :
    (convertInstagramToGBPPost post).summary = summaryAmended post
    ∧ (convertInstagramToGBPPost post).media.isSome = mediaClaimCondition post := by
  constructor
  · rfl
  · have hcomm : mediaClaimCondition post
        = (jsTruthy post.media_url && (post.media_type == "IMAGE")) := Bool.and_comm _ _
    cases hc : (jsTruthy post.media_url && (post.media_type == "IMAGE")) <;>
      simp [convertInstagramToGBPPost, hcomm, hc]

/-- C5: `getValidAccessToken` performs a refresh exchange exactly when no
token is held (null or empty) or the held token's expiry minus the
60-second safety margin is at or before the current time; a token with more
than the safety margin of remaining validity is returned unchanged without
a refresh. -/
theorem getValidAccessToken_refresh_iff (st : GBPTokenState) (now : Int)
    (refreshOutcome : Except String (String × Int)) :
    ((getValidAccessToken st now refreshOutcome).didRefresh = true ↔
      (tokenHeld st = false ∨ st.tokenExpiresAt - 60000 ≤ now))
    ∧ (tokenHeld st = true → now < st.tokenExpiresAt - 60000 →
        getValidAccessToken st now refreshOutcome =
          { result := Except.ok (st.accessToken.getD "")
            state := st
            didRefresh := false }) := by
  have hdid : (getValidAccessToken st now refreshOutcome).didRefresh = needsRefresh st now := by
    by_cases h : needsRefresh st now <;> cases refreshOutcome <;>
      simp [getValidAccessToken, h]
  constructor
  · rw [hdid]
    simp [needsRefresh, Bool.or_eq_true, Bool.not_eq_true', decide_eq_true_eq]
  · intro h1 h2
    have hn : needsRefresh st now = false := by
      simp [needsRefresh, h1, decide_eq_false_iff_not]
      omega
    simp [getValidAccessToken, hn]

/-- C5 witness: a held token 40 seconds clear of the safety margin is
returned unchanged, with no refresh. -/
theorem getValidAccessToken_refresh_iff_witness :
    tokenHeld { accessToken := some "t", tokenExpiresAt := 100000 } = true
    ∧ getValidAccessToken { accessToken := some "t", tokenExpiresAt := 100000 } 0
        (Except.error "x")
      = { result := Except.ok "t"
          state := { accessToken := some "t", tokenExpiresAt := 100000 }
          didRefresh := false } := by
  refine ⟨by decide, ?_⟩
  exact (getValidAccessToken_refresh_iff
    { accessToken := some "t", tokenExpiresAt := 100000 } 0 (Except.error "x")).2
    (by decide) (by decide)

/-- C8: with no token held, the interleaving in which both callers evaluate
the timestamp check before either refresh response lands makes the code
issue two refresh HTTP requests — the naive check does not coalesce
concurrent callers onto a single outstanding refresh. -/
theorem duplicate_refresh_interleaving :
    (runCallers 0 ("tok", 3600) [true, false, true, false] initialCallers).refreshCalls = 2
    ∧ (runCallers 0 ("tok", 3600) [true, false, true, false] initialCallers).phaseA
        = CallerPhase.finished
    ∧ (runCallers 0 ("tok", 3600) [true, false, true, false] initialCallers).phaseB
        = CallerPhase.finished := by
  decide

/-- C9 counterexample: a signature consisting of the correct 64-character
digest followed by two non-hex characters is not well-formed hex, yet
verifies as `true`, because `Buffer.from(s, 'hex')` silently truncates at
the first invalid character. -/
theorem verify_signature_malformed_counterexample :
    wellFormedHexSig (String.mk (List.replicate 64 '0')) = true
    ∧ wellFormedHexSig (removeSigMarker (String.mk (List.replicate 64 '0' ++ ['z', 'z'])))
        = false
    ∧ verifyWebhookSignature (String.mk (List.replicate 64 '0'))
        (String.mk (List.replicate 64 '0' ++ ['z', 'z'])) = true := by
  decide

/-- C9 (amended): verification is total — the `try/catch` turns the
length-mismatch error of the constant-time comparison into `false`, so for
every digest and signature the call returns the boolean equality of the
decoded (longest valid hex prefix) signature bytes with the digest bytes;
in particular any signature whose decoded length differs from the digest's
32 bytes yields `false`, but trailing malformed characters after a correct
64-hex-digit prefix are ignored. -/
theorem verify_signature_total (digestHex signature : String) :
    verifyWebhookSignature digestHex signature
      = (hexDecode (removeSigMarker signature).data == hexDecode digestHex.data) := by
  unfold verifyWebhookSignature timingSafeEqual
  by_cases h : (hexDecode digestHex.data).length
      = (hexDecode (removeSigMarker signature).data).length
  · simp only [h, if_true, ite_true, if_pos]
    cases h1 : (hexDecode digestHex.data == hexDecode (removeSigMarker signature).data) <;>
      cases h2 : (hexDecode (removeSigMarker signature).data == hexDecode digestHex.data) <;>
        simp_all [beq_iff_eq]
  · simp only [h, if_false, ite_false]
    cases h2 : (hexDecode (removeSigMarker signature).data == hexDecode digestHex.data)
    · rfl
    · exact absurd (congrArg List.length (eq_of_beq h2)).symm h

/-- C10: reading the ledger when the store file does not exist yields the
empty record list and all-zero statistics; a read failure other than
file-absence is rethrown to the caller. -/
theorem ledger_absent_empty (limit offset : Nat) (e : String) :
    getSyncLogs StoreRead.absent limit offset = Except.ok []
    ∧ getSyncLogStats StoreRead.absent
        = { total := 0, successful := 0, failed := 0, skipped := 0, lastSync := none }
    ∧ getSyncLogs (StoreRead.readError e) limit offset = Except.error e :=
  ⟨rfl, rfl, rfl⟩

/-- Caption present and non-blank, as checked first by `filterByContent`. -/
def captionPresentOk (post : InstagramPost) : Bool :=
  match post.caption with
  | none => false
  | some c => !((trimStr c).length == 0)

/-- Caption at least 10 characters long once tag tokens are stripped and the
ends trimmed, as checked second by `filterByContent`. -/
def cleanedLengthOk (post : InstagramPost) : Bool :=
  match post.caption with
  | none => false
  | some c => decide (10 ≤ (trimStr (stripTagsStr c)).length)

theorem filterByContent_ok (post : InstagramPost)
    (h1 : captionPresentOk post = true) (h2 : cleanedLengthOk post = true)
    (h3 : (extractHashtags post.caption).length ≤ 20) :
    (filterByContent post).shouldSync = true := by
  unfold filterByContent
  unfold captionPresentOk at h1
  unfold cleanedLengthOk at h2
  cases hc : post.caption with
  | none => rw [hc] at h1; simp at h1
  | some c =>
    rw [hc] at h1 h2 h3
    simp only [Bool.not_eq_true', beq_eq_false_iff_ne, decide_eq_true_eq] at h1 h2
    simp only [extractHashtags] at h3
    dsimp only
    split_ifs with g1 g2 g3
    · exact absurd g1 h1
    · omega
    · omega
    · rfl

theorem filterByContent_count_le (post : InstagramPost)
    (h : (filterByContent post).shouldSync = true) :
    (extractHashtags post.caption).length ≤ 20 := by
  unfold filterByContent at h
  cases hc : post.caption with
  | none => rw [hc] at h; simp at h
  | some c =>
    rw [hc] at h
    dsimp only at h
    simp only [extractHashtags]
    split_ifs at h with g1 g2 g3
    all_goals simp_all

theorem filterPost_eligible_content (targetRaw : String) (now : Int) (post : InstagramPost)
    (h : (filterPost targetRaw now post).shouldSync = true) :
    (filterByContent post).shouldSync = true := by
  unfold filterPost at h
  split_ifs at h with g1 g2 g3 g4 <;> simp_all

/-- The C3 counterexample candidate: a recent single-image post whose
caption carries the single distinct tag `#meo` 21 times plus ten plain
characters. -/
def repeatedTagPost : InstagramPost :=
  { id := "p"
    caption := some ("abcdefghij #meo #meo #meo #meo #meo #meo #meo #meo #meo #meo #meo #meo #meo #meo #meo #meo #meo #meo #meo #meo #meo")
    media_type := "IMAGE"
    media_url := some ("http://m")
    permalink := "http://x"
    timestamp := 0 }

/-- C3 counterexample: `repeatedTagPost` satisfies every condition of the
claim — at most 20 *distinct* tag tokens (in fact one), target tag present,
allowed media kind, recent, caption-length conditions — yet the verdict is
ineligible, because the code counts tag-token occurrences (21 here), not
distinct tokens. -/
theorem filter_distinct_count_counterexample :
    ((extractHashtags repeatedTagPost.caption).dedup.length ≤ 20
      ∧ ((extractHashtags repeatedTagPost.caption).map lowerStr).contains
          (lowerStr ("#MEO")) = true
      ∧ (filterByMediaType repeatedTagPost).shouldSync = true
      ∧ (filterByAge repeatedTagPost 0 24).shouldSync = true
      ∧ captionPresentOk repeatedTagPost = true
      ∧ cleanedLengthOk repeatedTagPost = true)
    ∧ (filterPost ("#MEO") 0 repeatedTagPost).shouldSync = false := by
  decide

/-- C3 (amended): a caption with 21 or more distinct tag tokens is always
ineligible; and when the *total* number of tag-token occurrences (duplicates
counted) is at most 20 and the target tag, media-kind, recency and
caption-length conditions hold, the verdict is eligible with the full tag
list as evidence. -/
theorem filter_hashtag_count (targetRaw : String) (now : Int) (post : InstagramPost) :
    (21 ≤ (extractHashtags post.caption).dedup.length →
      (filterPost targetRaw now post).shouldSync = false)
    ∧ ((extractHashtags post.caption).length ≤ 20 →
       ((extractHashtags post.caption).map lowerStr).contains (lowerStr targetRaw) = true →
       (filterByMediaType post).shouldSync = true →
       (filterByAge post now 24).shouldSync = true →
       captionPresentOk post = true →
       cleanedLengthOk post = true →
       filterPost targetRaw now post
         = { shouldSync := true
             matchedHashtags := extractHashtags post.caption
             reason := none }) := by
  constructor
  · intro h21
    by_contra hne
    have htrue : (filterPost targetRaw now post).shouldSync = true :=
      Bool.ne_false_iff.mp hne
    have hcontent := filterPost_eligible_content targetRaw now post htrue
    have hcount := filterByContent_count_le post hcontent
    have hdedup : (extractHashtags post.caption).dedup.length
        ≤ (extractHashtags post.caption).length :=
      (List.dedup_sublist _).length_le
    omega
  · intro hcount htag hmedia hage hcap hclean
    have hcontent := filterByContent_ok post hcap hclean hcount
    unfold filterPost
    rw [htag]
    simp [hmedia, hage, hcontent]

/-- C3 witness: a recent single-image post whose caption carries the target
tag once and enough plain text is eligible. -/
theorem filter_hashtag_count_witness :
    filterPost ("#MEO") 0
      { id := "p", caption := some ("New menu today! #MEO"), media_type := "IMAGE",
        media_url := some ("http://m"), permalink := "http://x", timestamp := 0 }
      = { shouldSync := true, matchedHashtags := ["#MEO"], reason := none } :=
  (filter_hashtag_count ("#MEO") 0
    { id := "p", caption := some ("New menu today! #MEO"), media_type := "IMAGE",
      media_url := some ("http://m"), permalink := "http://x", timestamp := 0 }).2
    (by decide) (by decide) (by decide) (by decide) (by decide) (by decide)

theorem filterPostRun_fst (targetRaw : String) (post : InstagramPost) (w : World) :
    (filterPostRun targetRaw post w).1 = filterPost targetRaw w.clock post := by
  unfold filterPostRun filterPost
  split_ifs <;> rfl

theorem filterPostRun_clock (targetRaw : String) (post : InstagramPost) (w : World) :
    (filterPostRun targetRaw post w).2.clock = w.clock := by
  unfold filterPostRun logLine
  split_ifs <;> rfl

theorem filterPostRun_logs (targetRaw : String) (post : InstagramPost) (w : World) :
    ∃ ls, (filterPostRun targetRaw post w).2.logLines = w.logLines ++ ls := by
  unfold filterPostRun logLine
  split_ifs <;> exact ⟨_, List.append_assoc _ _ _⟩

/-- C4: the filter verdict is a deterministic, side-effect-free function of
the candidate and the clock instant the age check reads: two runs whose
worlds agree on the clock return identical verdicts; re-running on the
world a run leaves behind returns the identical verdict again; the run
equals the pure `filterPost` at the sampled instant; and the run changes
nothing in the world other than appending log lines (in particular it never
moves the clock). -/
theorem filterPost_deterministic (targetRaw : String) (post : InstagramPost)
    (w1 w2 : World) (h : w1.clock = w2.clock) :
    (filterPostRun targetRaw post w1).1 = (filterPostRun targetRaw post w2).1
    ∧ (filterPostRun targetRaw post (filterPostRun targetRaw post w1).2).1
        = (filterPostRun targetRaw post w1).1
    ∧ (filterPostRun targetRaw post w1).1 = filterPost targetRaw w1.clock post
    ∧ (filterPostRun targetRaw post w1).2.clock = w1.clock
    ∧ ∃ ls, (filterPostRun targetRaw post w1).2.logLines = w1.logLines ++ ls := by
  refine ⟨?_, ?_, filterPostRun_fst targetRaw post w1, filterPostRun_clock targetRaw post w1,
    filterPostRun_logs targetRaw post w1⟩
  · rw [filterPostRun_fst, filterPostRun_fst, h]
  · rw [filterPostRun_fst, filterPostRun_fst, filterPostRun_clock]

/-- C4 witness: two worlds with equal clocks but different log histories
yield the same verdict on a concrete candidate; evaluated consequences at
that instance. -/
theorem filterPost_deterministic_witness :
    (filterPostRun ("#MEO")
        { id := "p", caption := some ("New menu today! #MEO"), media_type := "IMAGE",
          media_url := some ("http://m"), permalink := "http://x", timestamp := 0 }
        { clock := 0, logLines := [] }).1
      = (filterPostRun ("#MEO")
        { id := "p", caption := some ("New menu today! #MEO"), media_type := "IMAGE",
          media_url := some ("http://m"), permalink := "http://x", timestamp := 0 }
        { clock := 0, logLines := ["boot"] }).1
    ∧ (filterPostRun ("#MEO")
        { id := "p", caption := some ("New menu today! #MEO"), media_type := "IMAGE",
          media_url := some ("http://m"), permalink := "http://x", timestamp := 0 }
        (filterPostRun ("#MEO")
          { id := "p", caption := some ("New menu today! #MEO"), media_type := "IMAGE",
            media_url := some ("http://m"), permalink := "http://x", timestamp := 0 }
          { clock := 0, logLines := [] }).2).1
      = (filterPostRun ("#MEO")
        { id := "p", caption := some ("New menu today! #MEO"), media_type := "IMAGE",
          media_url := some ("http://m"), permalink := "http://x", timestamp := 0 }
        { clock := 0, logLines := [] }).1
    ∧ (filterPostRun ("#MEO")
        { id := "p", caption := some ("New menu today! #MEO"), media_type := "IMAGE",
          media_url := some ("http://m"), permalink := "http://x", timestamp := 0 }
        { clock := 0, logLines := [] }).1
      = filterPost ("#MEO") (World.clock { clock := 0, logLines := [] })
          { id := "p", caption := some ("New menu today! #MEO"), media_type := "IMAGE",
            media_url := some ("http://m"), permalink := "http://x", timestamp := 0 }
    ∧ (filterPostRun ("#MEO")
        { id := "p", caption := some ("New menu today! #MEO"), media_type := "IMAGE",
          media_url := some ("http://m"), permalink := "http://x", timestamp := 0 }
        { clock := 0, logLines := [] }).2.clock = World.clock { clock := 0, logLines := [] }
    ∧ ∃ ls, (filterPostRun ("#MEO")
        { id := "p", caption := some ("New menu today! #MEO"), media_type := "IMAGE",
          media_url := some ("http://m"), permalink := "http://x", timestamp := 0 }
        { clock := 0, logLines := [] }).2.logLines
      = World.logLines { clock := 0, logLines := [] } ++ ls :=
  filterPost_deterministic ("#MEO")
    { id := "p", caption := some ("New menu today! #MEO"), media_type := "IMAGE",
      media_url := some ("http://m"), permalink := "http://x", timestamp := 0 }
    { clock := 0, logLines := [] } { clock := 0, logLines := ["boot"] } (by decide)

instance : IsTotal SyncLog (fun a b => b.timestamp ≤ a.timestamp) :=
  ⟨fun a b => le_total b.timestamp a.timestamp⟩

instance : IsTrans SyncLog (fun a b => b.timestamp ≤ a.timestamp) :=
  ⟨fun _ _ _ hab hbc => le_trans hbc hab⟩

theorem sortLogsDesc_sorted (logs : List SyncLog) :
    (sortLogsDesc logs).Pairwise (fun a b => b.timestamp ≤ a.timestamp) :=
  List.sorted_insertionSort _ logs

theorem sortLogsDesc_perm (logs : List SyncLog) : (sortLogsDesc logs).Perm logs :=
  List.perm_insertionSort _ logs

/-- One page of the ledger read: records sorted by timestamp descending,
then `slice(offset, offset + limit)`. -/
def listPage (logs : List SyncLog) (limit offset : Nat) : List SyncLog :=
  ((sortLogsDesc logs).drop offset).take limit

theorem filterMap_id_map_some (logs : List SyncLog) :
    (logs.map some).filterMap id = logs := by
  induction logs with
  | nil => rfl
  | cons a l ih => simp [ih]

theorem join_chunks :
    ∀ (k : Nat) (l : List SyncLog) (limit : Nat), l.length ≤ k * limit →
      ((List.range k).map (fun i => (l.drop (i * limit)).take limit)).flatten = l := by
  intro k
  induction k with
  | zero =>
    intro l limit h
    simp only [Nat.zero_mul, Nat.le_zero] at h
    simp [List.eq_nil_of_length_eq_zero h]
  | succ k ih =>
    intro l limit h
    rw [List.range_succ_eq_map]
    simp only [List.map_cons, List.map_map, List.flatten_cons, Nat.zero_mul, List.drop_zero]
    have hrw : (List.range k).map ((fun i => (l.drop (i * limit)).take limit) ∘ Nat.succ)
        = (List.range k).map (fun i => ((l.drop limit).drop (i * limit)).take limit) := by
      apply List.map_congr_left
      intro i _
      simp only [Function.comp_apply]
      rw [List.drop_drop, Nat.succ_mul, Nat.add_comm]
    rw [hrw, ih (l.drop limit) limit
      (by
        simp only [List.length_drop]
        have hs : (k + 1) * limit = k * limit + limit := by ring
        omega)]
    exact List.take_append_drop limit l

theorem listPage_strict (logs : List SyncLog) (limit offset : Nat)
    (hd : (logs.map (fun r => r.timestamp)).Nodup) :
    (listPage logs limit offset).Pairwise (fun a b => b.timestamp < a.timestamp) := by
  have hsorted := sortLogsDesc_sorted logs
  have hperm := sortLogsDesc_perm logs
  have hnodup : ((sortLogsDesc logs).map (fun r => r.timestamp)).Nodup :=
    ((hperm.map (fun r => r.timestamp)).nodup_iff).mpr hd
  have hne : (sortLogsDesc logs).Pairwise (fun a b => a.timestamp ≠ b.timestamp) :=
    List.pairwise_map.mp hnodup
  have hcomb := hsorted.and hne
  have hsub : List.Sublist (listPage logs limit offset) (sortLogsDesc logs) :=
    (List.take_sublist _ _).trans (List.drop_sublist _ _)
  exact (hcomb.sublist hsub).imp (fun hab => lt_of_le_of_ne hab.1 hab.2.symm)

/-- C6: reading the ledger over a stored record set with pairwise-distinct
timestamps returns pages that are strictly ordered by descending timestamp,
pagination is applied to the sorted sequence (the returned page is the
`slice(offset, offset + limit)` of the full sort), and concatenating the
pages taken at page boundaries reconstructs the full sorted sequence, which
is a permutation of the stored records — no gaps, no duplicates. -/
theorem getSyncLogs_pagination (logs : List SyncLog) (limit offset k : Nat)
    (hd : (logs.map (fun r => r.timestamp)).Nodup)
    (hk : logs.length ≤ k * limit) :
    getSyncLogs (StoreRead.ok (logs.map some)) limit offset
      = Except.ok (listPage logs limit offset)
    ∧ (listPage logs limit offset).Pairwise (fun a b => b.timestamp < a.timestamp)
    ∧ ((List.range k).map (fun i => listPage logs limit (i * limit))).flatten
        = sortLogsDesc logs
    ∧ (sortLogsDesc logs).Perm logs := by
  refine ⟨?_, listPage_strict logs limit offset hd, ?_, sortLogsDesc_perm logs⟩
  · simp [getSyncLogs, filterMap_id_map_some, listPage]
  · have hlen : (sortLogsDesc logs).length ≤ k * limit := by
      rw [(sortLogsDesc_perm logs).length_eq]
      exact hk
    simpa [listPage] using join_chunks k (sortLogsDesc logs) limit hlen

/-- A concrete ledger record used by the pagination witness. -/
def wRecord (n : String) (t : Int) : SyncLog :=
  { id := n, timestamp := t, instagramPostId := n, instagramCaption := none,
    instagramMediaUrl := none, gbpPostId := none, status := SyncStatus.skipped,
    error := none, hashtags := [], syncDuration := 0 }

/-- C6 witness: two records with distinct timestamps, pages of size one. -/
theorem getSyncLogs_pagination_witness :
    getSyncLogs (StoreRead.ok ([wRecord ("a") 1, wRecord ("b") 2].map some)) 1 0
      = Except.ok (listPage [wRecord ("a") 1, wRecord ("b") 2] 1 0)
    ∧ (listPage [wRecord ("a") 1, wRecord ("b") 2] 1 0).Pairwise
        (fun a b => b.timestamp < a.timestamp)
    ∧ ((List.range 2).map
        (fun i => listPage [wRecord ("a") 1, wRecord ("b") 2] 1 (i * 1))).flatten
      = sortLogsDesc [wRecord ("a") 1, wRecord ("b") 2]
    ∧ (sortLogsDesc [wRecord ("a") 1, wRecord ("b") 2]).Perm
        [wRecord ("a") 1, wRecord ("b") 2] :=
  getSyncLogs_pagination [wRecord ("a") 1, wRecord ("b") 2] 1 0 2 (by decide) (by decide)

theorem maxTimestamp_perm {l1 l2 : List SyncLog} (h : l1.Perm l2) :
    maxTimestamp l1 = maxTimestamp l2 := by
  induction h with
  | nil => rfl
  | cons x h ih => simp only [maxTimestamp, ih]
  | swap x y l =>
    simp only [maxTimestamp]
    cases hm : maxTimestamp l
    · simp [max_comm]
    · simp [max_left_comm]
  | trans h1 h2 ih1 ih2 => exact ih1.trans ih2

theorem maxTimestamp_of_sorted :
    ∀ s : List SyncLog, s.Pairwise (fun a b => b.timestamp ≤ a.timestamp) →
      maxTimestamp s = s.head?.map (fun r => r.timestamp) := by
  intro s
  induction s with
  | nil => intro _; rfl
  | cons r rest ih =>
    intro hs
    have hr : ∀ b ∈ rest, b.timestamp ≤ r.timestamp := (List.pairwise_cons.mp hs).1
    simp only [maxTimestamp, ih (List.pairwise_cons.mp hs).2]
    cases rest with
    | nil => rfl
    | cons y t => simp [max_eq_left (hr y (List.mem_cons_self y t))]

/-- C7 (amended): the derived statistics are computed by scanning the
records returned by `getSyncLogs(1000)` — the most recent 1000 — with no
separately persisted counters; they therefore equal the scan of the entire
record set exactly when the store holds at most 1000 decodable records. -/
theorem getSyncLogStats_scan (lines : List (Option SyncLog))
    (h : (lines.filterMap id).length ≤ 1000) :
    getSyncLogStats (StoreRead.ok lines) = scanStats (lines.filterMap id) := by
  have hperm := sortLogsDesc_perm (lines.filterMap id)
  have hlen : (sortLogsDesc (lines.filterMap id)).length ≤ 1000 := by
    rw [hperm.length_eq]
    exact h
  have htake : (sortLogsDesc (lines.filterMap id)).take 1000
      = sortLogsDesc (lines.filterMap id) := List.take_of_length_le hlen
  unfold getSyncLogStats getSyncLogs
  simp only [List.drop_zero, htake]
  unfold scanStats
  have hcount : ∀ p : SyncLog → Bool,
      ((sortLogsDesc (lines.filterMap id)).filter p).length
        = ((lines.filterMap id).filter p).length :=
    fun p => (hperm.filter p).length_eq
  have hlast : (match sortLogsDesc (lines.filterMap id) with
      | [] => none
      | r :: _ => some r.timestamp) = maxTimestamp (lines.filterMap id) := by
    rw [← maxTimestamp_perm hperm,
      maxTimestamp_of_sorted _ (sortLogsDesc_sorted (lines.filterMap id))]
    cases sortLogsDesc (lines.filterMap id) <;> rfl
  simp only [SyncStats.mk.injEq]
  exact ⟨hperm.length_eq, hcount _, hcount _, hcount _, hlast⟩

/-- C7 witness: a three-line store with one malformed line. -/
theorem getSyncLogStats_scan_witness :
    getSyncLogStats (StoreRead.ok [some (wRecord ("a") 1), none, some (wRecord ("b") 2)])
      = scanStats ([some (wRecord ("a") 1), none, some (wRecord ("b") 2)].filterMap id) :=
  getSyncLogStats_scan [some (wRecord ("a") 1), none, some (wRecord ("b") 2)] (by decide)

/-- Line `i` of the C7 counterexample store: a well-formed record with
timestamp `1001 - i` (file order is newest first). -/
def c7Line (i : Nat) : Option SyncLog :=
  some { id := "", timestamp := (1001 : Int) - i, instagramPostId := "",
         instagramCaption := none, instagramMediaUrl := none, gbpPostId := none,
         status := SyncStatus.success, error := none, hashtags := [], syncDuration := 0 }

/-- A store of 1001 decodable records with distinct timestamps. -/
def c7Store : List (Option SyncLog) := (List.range 1001).map c7Line

/-- C7 counterexample: on a store of 1001 records the derived statistics
count only 1000 of them (`getSyncLogStats` scans `getSyncLogs(1000)`), so
they differ from the scan of the entire record set. -/
theorem stats_not_whole_set_counterexample :
    (getSyncLogStats (StoreRead.ok c7Store)).total = 1000
    ∧ (scanStats (c7Store.filterMap id)).total = 1001
    ∧ getSyncLogStats (StoreRead.ok c7Store) ≠ scanStats (c7Store.filterMap id) := by
  have h1 : (getSyncLogStats (StoreRead.ok c7Store)).total = 1000 := rfl
  have h2 : (scanStats (c7Store.filterMap id)).total = 1001 := rfl
  refine ⟨h1, h2, fun he => ?_⟩
  rw [he, h2] at h1
  exact absurd h1 (by decide)
